import Mathlib

/-!
Verification development for the news-RAG pipeline (src/newsRAG.py).

The Python program is a linear pipeline: user query → news search →
per-article text extraction → prompt assembly → chat-completion call →
display.  Every external effect (the search API call, each page download,
the chat-completion call) is modelled by an explicit outcome value or
oracle function supplied as input, so each component becomes a pure,
executable Lean function mirroring the corresponding Python function
line by line.  Machine-level details that the claims do not touch
(stdin prompting for API keys, logging configuration) are not modelled;
progress prints emitted inside the extraction loop are likewise not
tracked in the trace, which records the messages of the decision points
the specification talks about.
-/

namespace NewsRAG

/-- Whitespace set of the Python `str.strip()` method restricted to ASCII:
space, tab, newline, carriage return, vertical tab, form feed. -/
def isPySpace (c : Char) : Bool :=
  c = ' ' || c = '\t' || c = '\n' || c = '\r' || c = '\x0b' || c = '\x0c'

/-- Strip leading and trailing whitespace characters from a character list. -/
def pyStripList (l : List Char) : List Char :=
  ((l.dropWhile isPySpace).reverse.dropWhile isPySpace).reverse

/-- Model of the Python `str.strip()` method: remove leading and trailing whitespace. -/
def pyStrip (s : String) : String :=
  String.mk (pyStripList s.data)

/-- Python renders `None` as the text `None` inside an f-string; any other
string is rendered verbatim.  Models `f"{x}"` for an optional string. -/
def pyFStr : Option String → String
  | none => "None"
  | some s => s

/-- One record of the `news_results` list of the search API: the fields the
program reads via `article.get(...)` (src/newsRAG.py lines 71-78).
`none` models a missing key. -/
structure ApiResult where
  title : Option String
  link : Option String
  source : Option String
  published : Option String
  snippet : Option String
  deriving DecidableEq, Repr

/-- The dictionary built by `get_google_news_articles` for each result
(src/newsRAG.py lines 72-78). -/
structure ArticleMetadata where
  title : Option String
  link : Option String
  source : Option String
  published_date : Option String
  snippet : Option String
  deriving DecidableEq, Repr

/-- An article dictionary once `full_text` has been assigned into it
(src/newsRAG.py line 191). -/
structure ExtractedArticle where
  meta : ArticleMetadata
  full_text : String
  deriving DecidableEq, Repr

/-- Outcome of the external search call `GoogleSearch(params).get_dict()`:
either it raises, or it returns a response whose `news_results` list is
given (`[]` models both an empty list and a missing key, the `get`
default). -/
inductive SearchOutcome where
  | raises (msg : String)
  | ok (news_results : List ApiResult)
  deriving DecidableEq, Repr

/-- Outcome of `Article(url); article.download(); article.parse()` for one
URL: either some step raises, or parsing yields the body text
`article.text`. -/
inductive FetchOutcome where
  | raises (msg : String)
  | page (text : String)
  deriving DecidableEq, Repr

/-- The chat-completion request assembled by `send_to_gpt`
(src/newsRAG.py lines 145-153).  Messages are (role, content) pairs. -/
structure ChatRequest where
  model : String
  messages : List (String × String)
  max_tokens : Nat
  temperature : ℚ
  deriving DecidableEq, Repr

/-- Outcome of `openai.ChatCompletion.create(...)`: an `AttributeError`
(outdated client library), any other exception, or a response carrying
the content strings of its `choices` list. -/
inductive LLMOutcome where
  | raisesAttr (msg : String)
  | raisesOther (msg : String)
  | ok (choices : List String)
  deriving DecidableEq, Repr

/-- Final observable outcome of a run: `sys.exit(code)` or normal
completion after displaying the reply. -/
inductive Outcome where
  | exited (code : Nat)
  | completed (reply : String)
  deriving DecidableEq, Repr

/-- Observable trace of one run of `main`: the tracked printed messages,
how many times the search API was called, which links were passed to
`extract_article_text`, which chat-completion requests were issued, and
the final outcome. -/
structure Trace where
  printed : List String
  searchCalls : Nat
  attemptedLinks : List (Option String)
  llmRequests : List ChatRequest
  outcome : Outcome
  deriving DecidableEq, Repr

/-- Model of `get_user_query` (src/newsRAG.py lines 29-40): strip the raw
input line; if the result is empty, print a message and exit 1, otherwise
return the stripped query.  Result: (printed messages, exit-or-query). -/
def get_user_query (raw : String) : List String × Except Nat String :=
  let query := pyStrip raw
  if query = "" then (["Search query cannot be empty."], Except.error 1)
  else ([], Except.ok query)

/-- Model of `get_google_news_articles` (src/newsRAG.py lines 42-85).
The outcome of the external call is the argument.  If the call raises, or the
`news_results` list is empty, print a message and exit 1; otherwise map
each API result record to an `ArticleMetadata` dictionary, in order.
`sys.exit` raises `SystemExit`, which the `except Exception` clause does
not catch, so the exit inside the `try` block stands. -/
def get_google_news_articles (outcome : SearchOutcome) :
    List String × Except Nat (List ArticleMetadata) :=
  match outcome with
  | SearchOutcome.raises m =>
      (["An error occurred while fetching articles: " ++ m], Except.error 1)
  | SearchOutcome.ok news_results =>
      if news_results = [] then
        (["No news articles found for the given query."], Except.error 1)
      else
        ([], Except.ok (news_results.map fun a =>
          { title := a.title
            link := a.link
            source := a.source
            published_date := a.published
            snippet := a.snippet }))

/-- Model of `extract_article_text` (src/newsRAG.py lines 87-108), with the
download/parse outcome supplied by the oracle `fetch`.  On a parsed page,
strip the body text: non-empty means success with that text; empty means
failure with the fixed placeholder.  Any exception is caught and also
mapped to the failure pair (the accompanying print is not tracked). -/
def extract_article_text (fetch : Option String → FetchOutcome)
    (url : Option String) : Bool × String :=
  match fetch url with
  | FetchOutcome.raises _ => (false, "Content could not be retrieved.")
  | FetchOutcome.page body =>
      let text := pyStrip body
      if text = "" then (false, "Content could not be retrieved.")
      else (true, text)

/-- The extraction loop of `main` (src/newsRAG.py lines 183-194), with
accumulators for `successful_articles` and for the links attempted so
far.  The loop breaks as soon as 5 successes have been accumulated,
before attempting the next candidate; a successful candidate is appended
with its extracted text attached; a failed candidate is skipped. -/
def extractionLoopAux (f : Option String → Bool × String) :
    List ArticleMetadata → List ExtractedArticle → List (Option String) →
    List ExtractedArticle × List (Option String)
  | [], acc, att => (acc, att)
  | a :: rest, acc, att =>
      if 5 ≤ acc.length then (acc, att)
      else
        if (f a.link).1 then
          extractionLoopAux f rest (acc ++ [{ meta := a, full_text := (f a.link).2 }])
            (att ++ [a.link])
        else
          extractionLoopAux f rest acc (att ++ [a.link])

/-- The extraction loop started with empty accumulators, as in `main`. -/
def extractionLoop (f : Option String → Bool × String)
    (articles : List ArticleMetadata) :
    List ExtractedArticle × List (Option String) :=
  extractionLoopAux f articles [] []

/-- Number of candidates the extraction loop examines when `quota` more
successes are still wanted: zero when the quota is filled or the list is
exhausted, otherwise one step plus the rest with the quota reduced on
success. -/
def numExamined (f : Option String → Bool × String) :
    List ArticleMetadata → Nat → Nat
  | _, 0 => 0
  | [], _ + 1 => 0
  | a :: rest, q + 1 =>
      1 + numExamined f rest (if (f a.link).1 then q else q + 1)

/-- The post-loop check of `main` (src/newsRAG.py lines 196-202) as a
function of the number of successfully extracted articles: zero
successes prints a message and exits 1; fewer than 5 prints a warning
and proceeds; otherwise prints a success message and proceeds. -/
def postLoopMessages (n : Nat) : List String × Except Nat Unit :=
  if n = 0 then
    (["No articles were successfully retrieved. Exiting."], Except.error 1)
  else if n < 5 then
    (["\nOnly " ++ toString n ++ " articles were successfully retrieved.\n"],
      Except.ok ())
  else
    (["\nSuccessfully retrieved 5 articles.\n"], Except.ok ())

/-- One article block of the prompt (src/newsRAG.py lines 124-126):
the three f-strings appended for article number `idx`. -/
def articleBlock (idx : Nat) (a : ExtractedArticle) : String :=
  "Article " ++ toString idx ++ ":\n" ++
    ("Title: " ++ pyFStr a.meta.title ++ "\n") ++
    ("Content: " ++ a.full_text ++ "\n\n")

/-- Right-to-left composition of the article blocks starting at index
`idx`: the compositional description of the loop body of
`prepare_prompt`. -/
def blocks (idx : Nat) : List ExtractedArticle → String
  | [] => ""
  | a :: rest => articleBlock idx a ++ blocks (idx + 1) rest

/-- The `for idx, article in enumerate(articles, start=1)` loop of
`prepare_prompt` (src/newsRAG.py lines 123-126), accumulating into
`prompt` with left-associated `+=` as Python does. -/
def promptLoop : List ExtractedArticle → Nat → String → String
  | [], _, prompt => prompt
  | a :: rest, idx, prompt =>
      promptLoop rest (idx + 1)
        (((prompt ++ ("Article " ++ toString idx ++ ":\n")) ++
            ("Title: " ++ pyFStr a.meta.title ++ "\n")) ++
          ("Content: " ++ a.full_text ++ "\n\n"))

/-- The fixed instruction appended at the end of the prompt
(src/newsRAG.py line 128). -/
def trailingInstruction : String :=
  "Please provide your analysis based on the above articles. Focus on the potential reasons behind a recent change in stock price."

/-- Model of `prepare_prompt` (src/newsRAG.py lines 110-129): header
stating the article count, then the per-article loop, then the fixed
trailing instruction. -/
def prepare_prompt (articles : List ExtractedArticle) : String :=
  let num_articles := articles.length
  let header := "Here are " ++ toString num_articles ++ " news articles:\n\n"
  promptLoop articles 1 header ++ trailingInstruction

/-- Model of `send_to_gpt` (src/newsRAG.py lines 131-162), with the
outcome of the chat-completion call supplied by the oracle `llm`.  Builds the
fixed request, then: first choice present → its stripped content; empty
choices list → the `IndexError` is caught by the generic handler and the
process exits 1; `AttributeError` → two messages and exit 1; any other
exception → one message and exit 1.  Result: (request, printed messages,
exit-or-reply). -/
def send_to_gpt (llm : ChatRequest → LLMOutcome) (prompt : String) :
    ChatRequest × List String × Except Nat String :=
  let request : ChatRequest :=
    { model := "gpt-4"
      messages := [("system", "You are a helpful assistant."), ("user", prompt)]
      max_tokens := 1500
      temperature := 7 / 10 }
  match llm request with
  | LLMOutcome.ok (first :: _) => (request, [], Except.ok (pyStrip first))
  | LLMOutcome.ok [] =>
      (request,
        ["An error occurred while communicating with OpenAI API: list index out of range"],
        Except.error 1)
  | LLMOutcome.raisesAttr m =>
      (request,
        ["AttributeError: " ++ m,
          "Please ensure the \x27openai\x27 package is up-to-date."],
        Except.error 1)
  | LLMOutcome.raisesOther m =>
      (request,
        ["An error occurred while communicating with OpenAI API: " ++ m],
        Except.error 1)

/-- Model of `display_gpt_response` (src/newsRAG.py lines 164-173). -/
def display_gpt_response (response : String) : List String :=
  ["\n--- GPT-4 Response ---\n", response, "\n-----------------------\n"]

/-- Model of `main` (src/newsRAG.py lines 175-211), parameterised by the
raw query line and the three external oracles.  Credential resolution
performs no network traffic and is not modelled.  Produces the observable
trace of the run. -/
def mainRun (rawQuery : String) (search : SearchOutcome)
    (fetch : Option String → FetchOutcome)
    (llm : ChatRequest → LLMOutcome) : Trace :=
  match get_user_query rawQuery with
  | (msgs0, Except.error code) =>
      { printed := msgs0, searchCalls := 0, attemptedLinks := [],
        llmRequests := [], outcome := Outcome.exited code }
  | (msgs0, Except.ok _query) =>
      let fetchingMsg := "\nFetching up to 10 news articles...\n"
      match get_google_news_articles search with
      | (msgs1, Except.error code) =>
          { printed := msgs0 ++ [fetchingMsg] ++ msgs1, searchCalls := 1,
            attemptedLinks := [], llmRequests := [],
            outcome := Outcome.exited code }
      | (msgs1, Except.ok articles) =>
          let res := extractionLoop (extract_article_text fetch) articles
          let successful_articles := res.1
          match postLoopMessages successful_articles.length with
          | (msgs2, Except.error code) =>
              { printed := msgs0 ++ [fetchingMsg] ++ msgs1 ++ msgs2,
                searchCalls := 1, attemptedLinks := res.2, llmRequests := [],
                outcome := Outcome.exited code }
          | (msgs2, Except.ok _) =>
              let prompt := prepare_prompt successful_articles
              let sendMsg := "Sending data to GPT-4 for processing...\n"
              match send_to_gpt llm prompt with
              | (req, msgs3, Except.error code) =>
                  { printed := msgs0 ++ [fetchingMsg] ++ msgs1 ++ msgs2 ++
                      [sendMsg] ++ msgs3,
                    searchCalls := 1, attemptedLinks := res.2,
                    llmRequests := [req], outcome := Outcome.exited code }
              | (req, msgs3, Except.ok reply) =>
                  { printed := msgs0 ++ [fetchingMsg] ++ msgs1 ++ msgs2 ++
                      [sendMsg] ++ msgs3 ++ display_gpt_response reply,
                    searchCalls := 1, attemptedLinks := res.2,
                    llmRequests := [req], outcome := Outcome.completed reply }

/-- Removing trailing `p`-characters from a list, the mirror image of
`List.dropWhile`; proof infrastructure for `pyStripList`. -/
def stripRight (p : Char → Bool) (m : List Char) : List Char :=
  (m.reverse.dropWhile p).reverse

/-- Demo search-result records used by the witness theorems. -/
def demoApi (t l : String) : ApiResult :=
  { title := some t, link := some l, source := some "src"
    published := some "2024", snippet := some "snip" }

/-- Demo article-metadata record used by the witness theorems. -/
def demoMeta (t l : String) : ArticleMetadata :=
  { title := some t, link := some l, source := some "src"
    published_date := some "2024", snippet := some "snip" }

/-- Demo candidate list: eight articles; under `demoFetch` the third
raises, the sixth parses to whitespace only, and the remaining six
succeed, so the loop reaches five successes at the seventh article and
never examines the eighth. -/
def demoArts : List ArticleMetadata :=
  [demoMeta "T1" "a", demoMeta "T2" "b", demoMeta "T3" "c", demoMeta "T4" "d",
    demoMeta "T5" "e", demoMeta "T6" "f", demoMeta "T7" "g", demoMeta "T8" "h"]

/-- Demo page-fetch oracle: link `c` raises, link `f` yields a
whitespace-only page, anything else yields a page with text. -/
def demoFetch : Option String → FetchOutcome
  | some "c" => FetchOutcome.raises "boom"
  | some "f" => FetchOutcome.page "  \n "
  | some s => FetchOutcome.page (" body-" ++ s ++ " ")
  | none => FetchOutcome.raises "missing link"

/-- Demo extracted article: the first success of `demoFetch` on
`demoArts`. -/
def demoExtract : ExtractedArticle :=
  { meta := demoMeta "T1" "a", full_text := "body-a" }

/-- Demo chat-completion oracle: always answers with one choice. -/
def demoLLM : ChatRequest → LLMOutcome :=
  fun _ => LLMOutcome.ok ["  the reply  "]

/-- Fetch oracle whose every page body is exactly the failure
placeholder sentence; used to exhibit a successful extraction whose
content coincides with the placeholder text. -/
def placeholderPage : Option String → FetchOutcome :=
  fun _ => FetchOutcome.page "Content could not be retrieved."

section Lemmas

/-- The head of `dropWhile p l`, when present, does not satisfy `p`. -/
lemma dropWhile_head?_not (p : Char → Bool) (l : List Char) :
    ∀ c, (l.dropWhile p).head? = some c → p c = false := by
  induction l with
  | nil => intro c hc; simp at hc
  | cons a t ih =>
    intro c hc
    by_cases ha : p a = true
    · rw [List.dropWhile_cons_of_pos ha] at hc
      exact ih c hc
    · rw [List.dropWhile_cons_of_neg ha] at hc
      simp at hc
      rw [← hc]
      exact Bool.not_eq_true _ |>.mp ha

/-- A list whose head does not satisfy `p` is unchanged by `dropWhile`. -/
lemma dropWhile_of_head?_not (p : Char → Bool) (l : List Char)
    (h : ∀ c, l.head? = some c → p c = false) : l.dropWhile p = l := by
  cases l with
  | nil => rfl
  | cons a t =>
    have ha : p a = false := h a rfl
    rw [List.dropWhile_cons_of_neg (by simp [ha])]

/-- `dropWhile` is idempotent. -/
lemma dropWhile_idem (p : Char → Bool) (l : List Char) :
    (l.dropWhile p).dropWhile p = l.dropWhile p :=
  dropWhile_of_head?_not p _ (dropWhile_head?_not p l)

/-- `stripRight p m` is a prefix of `m`. -/
lemma stripRight_prefixOf (p : Char → Bool) (m : List Char) :
    (stripRight p m).IsPrefix m := by
  have h1 : (m.reverse.dropWhile p).IsSuffix m.reverse :=
    List.dropWhile_suffix p
  have h2 : (m.reverse.dropWhile p).reverse.IsPrefix m.reverse.reverse :=
    List.reverse_prefix.mpr h1
  rw [List.reverse_reverse] at h2
  exact h2

/-- `stripRight` is idempotent. -/
lemma stripRight_idem (p : Char → Bool) (m : List Char) :
    stripRight p (stripRight p m) = stripRight p m := by
  unfold stripRight
  rw [List.reverse_reverse, dropWhile_idem]

/-- `pyStripList` written as left strip followed by right strip. -/
lemma pyStripList_eq (l : List Char) :
    pyStripList l = stripRight isPySpace (l.dropWhile isPySpace) := rfl

/-- The head of a non-trivial prefix agrees with the head of the whole
list. -/
lemma head?_of_isPrefix {l m : List Char} (h : l.IsPrefix m) :
    ∀ c, l.head? = some c → m.head? = some c := by
  intro c hc
  obtain ⟨t, ht⟩ := h
  cases l with
  | nil => simp at hc
  | cons a u =>
    simp at hc
    rw [← ht]
    simp [hc]

/-- Stripping both ends is idempotent. -/
lemma pyStripList_idem (l : List Char) :
    pyStripList (pyStripList l) = pyStripList l := by
  rw [pyStripList_eq l]
  rw [pyStripList_eq]
  have hhead : ∀ c, (stripRight isPySpace (l.dropWhile isPySpace)).head? = some c →
      isPySpace c = false := by
    intro c hc
    exact dropWhile_head?_not isPySpace l c
      (head?_of_isPrefix (stripRight_prefixOf isPySpace (l.dropWhile isPySpace)) c hc)
  rw [dropWhile_of_head?_not isPySpace _ hhead, stripRight_idem]

/-- `pyStrip` is idempotent, as the Python `strip` method is. -/
lemma pyStrip_idem (s : String) : pyStrip (pyStrip s) = pyStrip s :=
  congrArg String.mk (pyStripList_idem s.data)

/-- `List.filter` on a cons whose head passes the predicate (stated with
the predicate explicit, so it applies to our loop predicate). -/
lemma filter_cons_pos (p : ArticleMetadata → Bool) (a : ArticleMetadata)
    (l : List ArticleMetadata) (h : p a = true) :
    List.filter p (a :: l) = a :: List.filter p l := by
  simp [List.filter_cons, h]

/-- `List.filter` on a cons whose head fails the predicate. -/
lemma filter_cons_neg (p : ArticleMetadata → Bool) (a : ArticleMetadata)
    (l : List ArticleMetadata) (h : ¬ p a = true) :
    List.filter p (a :: l) = List.filter p l := by
  simp [List.filter_cons, h]

/-- The successes accumulated by the extraction loop: the accumulator
followed by the next `5 - acc.length` successful candidates, each with
its extracted text attached. -/
lemma extractionLoopAux_fst (f : Option String → Bool × String)
    (l : List ArticleMetadata) :
    ∀ (acc : List ExtractedArticle) (att : List (Option String)),
      acc.length ≤ 5 →
      (extractionLoopAux f l acc att).1 =
        acc ++ (((l.filter fun a => (f a.link).1).take (5 - acc.length)).map
          fun a => { meta := a, full_text := (f a.link).2 }) := by
  induction l with
  | nil => intro acc att _; simp [extractionLoopAux]
  | cons a rest ih =>
    intro acc att h
    by_cases h5 : 5 ≤ acc.length
    · have hlen : acc.length = 5 := Nat.le_antisymm h h5
      simp [extractionLoopAux, h5, hlen]
    · have hlt : acc.length < 5 := Nat.lt_of_not_le h5
      by_cases hs : (f a.link).1 = true
      · have ih2 := ih (acc ++ [{ meta := a, full_text := (f a.link).2 }])
          (att ++ [a.link]) (by simp; omega)
        rw [extractionLoopAux, if_neg h5, if_pos hs, ih2]
        have htake : 5 - acc.length = (5 - (acc.length + 1)) + 1 := by omega
        rw [filter_cons_pos (fun a => (f a.link).1) a _ hs, htake, List.take_succ_cons, List.map_cons]
        simp [List.append_assoc]
      · have ih2 := ih acc (att ++ [a.link]) h
        rw [extractionLoopAux, if_neg h5, if_neg hs, ih2,
          filter_cons_neg (fun a => (f a.link).1) a _ hs]

/-- The links the extraction loop attempts: the accumulator followed by
the links of the first `numExamined` candidates. -/
lemma extractionLoopAux_snd (f : Option String → Bool × String)
    (l : List ArticleMetadata) :
    ∀ (acc : List ExtractedArticle) (att : List (Option String)),
      (extractionLoopAux f l acc att).2 =
        att ++ ((l.take (numExamined f l (5 - acc.length))).map fun a => a.link) := by
  induction l with
  | nil => intro acc att; simp [extractionLoopAux]
  | cons a rest ih =>
    intro acc att
    by_cases h5 : 5 ≤ acc.length
    · have h0 : 5 - acc.length = 0 := by omega
      rw [extractionLoopAux, if_pos h5, h0]
      simp [numExamined]
    · obtain ⟨q, hq⟩ : ∃ q, 5 - acc.length = q + 1 :=
        ⟨4 - acc.length, by omega⟩
      rw [extractionLoopAux, if_neg h5, hq]
      by_cases hs : (f a.link).1 = true
      · have ih2 := ih (acc ++ [({ meta := a, full_text := (f a.link).2 } : ExtractedArticle)])
          (att ++ [a.link])
        have hq2 : 5 - (acc ++ [({ meta := a, full_text := (f a.link).2 } : ExtractedArticle)]).length = q := by
          simp; omega
        rw [if_pos hs, ih2, hq2]
        have hnum : numExamined f (a :: rest) (q + 1) = numExamined f rest q + 1 := by
          rw [numExamined, if_pos hs]; omega
        rw [hnum, List.take_succ_cons, List.map_cons]
        simp [List.append_assoc]
      · have ih2 := ih acc (att ++ [a.link])
        rw [if_neg hs, ih2, hq]
        have hnum : numExamined f (a :: rest) (q + 1) = numExamined f rest (q + 1) + 1 := by
          rw [numExamined, if_neg hs]; omega
        rw [hnum, List.take_succ_cons, List.map_cons]
        simp [List.append_assoc]

/-- The loop examines no more candidates than there are. -/
lemma numExamined_le (f : Option String → Bool × String)
    (l : List ArticleMetadata) : ∀ q, numExamined f l q ≤ l.length := by
  induction l with
  | nil => intro q; cases q <;> simp [numExamined]
  | cons a rest ih =>
    intro q
    cases q with
    | zero => simp [numExamined]
    | succ q =>
      rw [numExamined]
      have := ih (if (f a.link).1 then q else q + 1)
      simp only [List.length_cons]
      omega

/-- When the loop stops, either it has gathered exactly `q` successes
among the examined candidates or it has examined the whole list. -/
lemma numExamined_stop (f : Option String → Bool × String)
    (l : List ArticleMetadata) :
    ∀ q, ((l.take (numExamined f l q)).filter fun a => (f a.link).1).length = q
      ∨ numExamined f l q = l.length := by
  induction l with
  | nil => intro q; right; cases q <;> simp [numExamined]
  | cons a rest ih =>
    intro q
    cases q with
    | zero => left; simp [numExamined]
    | succ q =>
      by_cases hs : (f a.link).1 = true
      · have hnum : numExamined f (a :: rest) (q + 1) = numExamined f rest q + 1 := by
          rw [numExamined, if_pos hs]; omega
        rcases ih q with hfil | hlen
        · left
          rw [hnum, List.take_succ_cons, filter_cons_pos (fun a => (f a.link).1) a _ hs,
            List.length_cons, hfil]
        · right
          rw [hnum, hlen, List.length_cons]
      · have hnum : numExamined f (a :: rest) (q + 1) = numExamined f rest (q + 1) + 1 := by
          rw [numExamined, if_neg hs]; omega
        rcases ih (q + 1) with hfil | hlen
        · left
          rw [hnum, List.take_succ_cons, filter_cons_neg (fun a => (f a.link).1) a _ hs, hfil]
        · right
          rw [hnum, hlen, List.length_cons]

/-- Before the loop stops, fewer than `q` successes have been gathered:
the loop never examines a candidate after its quota is filled. -/
lemma numExamined_min (f : Option String → Bool × String)
    (l : List ArticleMetadata) :
    ∀ q m, m < numExamined f l q →
      ((l.take m).filter fun a => (f a.link).1).length < q := by
  induction l with
  | nil => intro q m hm; cases q <;> simp [numExamined] at hm
  | cons a rest ih =>
    intro q m hm
    cases q with
    | zero => simp [numExamined] at hm
    | succ q =>
      cases m with
      | zero => simp
      | succ m =>
        by_cases hs : (f a.link).1 = true
        · rw [numExamined, if_pos hs] at hm
          have hm2 : m < numExamined f rest q := by omega
          rw [List.take_succ_cons, filter_cons_pos (fun a => (f a.link).1) a _ hs, List.length_cons]
          have := ih q m hm2
          omega
        · rw [numExamined, if_neg hs] at hm
          have hm2 : m < numExamined f rest (q + 1) := by omega
          rw [List.take_succ_cons, filter_cons_neg (fun a => (f a.link).1) a _ hs]
          exact ih (q + 1) m hm2

/-- The accumulator loop of `prepare_prompt` equals the accumulator
followed by the compositional block list. -/
lemma promptLoop_eq (l : List ExtractedArticle) :
    ∀ (idx : Nat) (prompt : String),
      promptLoop l idx prompt = prompt ++ blocks idx l := by
  induction l with
  | nil =>
    intro idx prompt
    rw [promptLoop, blocks, String.append_empty]
  | cons a rest ih =>
    intro idx prompt
    rw [promptLoop, ih, blocks, articleBlock]
    simp [String.append_assoc]

/-- `prepare_prompt` is the header stating the count, the article blocks
in order, and the trailing instruction. -/
lemma prepare_prompt_eq (l : List ExtractedArticle) :
    prepare_prompt l =
      ("Here are " ++ toString l.length ++ " news articles:\n\n") ++
        (blocks 1 l ++ trailingInstruction) := by
  rw [prepare_prompt, promptLoop_eq, String.append_assoc]

/-- The content line of an article is an infix of the block list built
from any list containing that article. -/
lemma contentLine_infix_blocks (a : ExtractedArticle) (l : List ExtractedArticle) :
    ∀ idx, a ∈ l →
      List.IsInfix ("Content: " ++ a.full_text ++ "\n\n").data (blocks idx l).data := by
  induction l with
  | nil => intro idx h; simp at h
  | cons b rest ih =>
    intro idx h
    rw [blocks, String.data_append]
    rcases List.mem_cons.mp h with hb | hmem
    · subst hb
      have hsuf : List.IsSuffix ("Content: " ++ a.full_text ++ "\n\n").data
          (articleBlock idx a).data := by
        rw [articleBlock, String.data_append]
        exact List.suffix_append _ _
      exact hsuf.isInfix.trans (List.prefix_append _ _).isInfix
    · have := ih (idx + 1) hmem
      exact this.trans (List.suffix_append _ _).isInfix

/-- The content line of an article is an infix of the full prompt built
from any list containing that article. -/
lemma contentLine_infix_prompt (a : ExtractedArticle) (l : List ExtractedArticle)
    (h : a ∈ l) :
    List.IsInfix ("Content: " ++ a.full_text ++ "\n\n").data (prepare_prompt l).data := by
  rw [prepare_prompt_eq, String.data_append, String.data_append]
  have h1 := contentLine_infix_blocks a l 1 h
  exact (h1.trans (List.prefix_append _ _).isInfix).trans
    (List.suffix_append _ _).isInfix

end Lemmas

/-- C1: the extraction loop examines candidates in search-result order,
attempts extraction on each examined candidate exactly once, skips
failures, and stops as soon as 5 successes are accumulated even if
unexamined candidates remain, otherwise running until the list is
exhausted.  The successes are the first five candidates whose extraction
succeeds, in order, with their extracted text attached; the attempted
links are exactly the first `n` candidates, where up to position `n` the
loop has fewer than 5 successes and at `n` it either has exactly 5 or
has exhausted the list. -/
theorem extraction_loop_examines_in_order_stops_at_five
    (f : Option String → Bool × String) (l : List ArticleMetadata) :
    (extractionLoop f l).1 =
      ((l.filter fun a => (f a.link).1).take 5).map
        (fun a => { meta := a, full_text := (f a.link).2 })
    ∧ ∃ n, n ≤ l.length
        ∧ (extractionLoop f l).2 = (l.take n).map (fun a => a.link)
        ∧ (∀ m, m < n → ((l.take m).filter fun a => (f a.link).1).length < 5)
        ∧ (((l.take n).filter fun a => (f a.link).1).length = 5 ∨ n = l.length) := by
  constructor
  · have h := extractionLoopAux_fst f l [] [] (by simp)
    simpa [extractionLoop] using h
  · refine ⟨numExamined f l 5, numExamined_le f l 5, ?_, ?_, ?_⟩
    · have h := extractionLoopAux_snd f l [] []
      simpa [extractionLoop] using h
    · intro m hm
      exact numExamined_min f l 5 m hm
    · exact numExamined_stop f l 5

/-- Witness for C1 at a concrete oracle and candidate list: eight
candidates of which six extract successfully; the loop stops after the
fifth success (the seventh candidate). -/
theorem extraction_loop_examines_in_order_stops_at_five_witness :
    (extractionLoop (extract_article_text demoFetch) demoArts).1 =
      ((demoArts.filter fun a => (extract_article_text demoFetch a.link).1).take 5).map
        (fun a => { meta := a, full_text := (extract_article_text demoFetch a.link).2 })
    ∧ ∃ n, n ≤ demoArts.length
        ∧ (extractionLoop (extract_article_text demoFetch) demoArts).2 =
            (demoArts.take n).map (fun a => a.link)
        ∧ (∀ m, m < n →
            ((demoArts.take m).filter fun a => (extract_article_text demoFetch a.link).1).length < 5)
        ∧ (((demoArts.take n).filter fun a => (extract_article_text demoFetch a.link).1).length = 5
            ∨ n = demoArts.length) :=
  extraction_loop_examines_in_order_stops_at_five (extract_article_text demoFetch) demoArts

/-- C2: on a search response whose news-result list has length K, with
1 ≤ K ≤ 10, the search client returns exactly K metadata records, at
most ten, in the order the API returned them, with the five fields of
each record
mapped from the API fields title, link, source, published and snippet. -/
theorem search_client_maps_results (l : List ApiResult)
    (h1 : 1 ≤ l.length) (h2 : l.length ≤ 10) :
    ∃ ms, (get_google_news_articles (SearchOutcome.ok l)).2 = Except.ok ms
      ∧ ms = l.map (fun a =>
          { title := a.title, link := a.link, source := a.source,
            published_date := a.published, snippet := a.snippet })
      ∧ ms.length = l.length ∧ ms.length ≤ 10 := by
  have hne : ¬ l = [] := by
    intro h
    subst h
    simp at h1
  refine ⟨_, ?_, rfl, by simp, by simp [h2]⟩
  simp [get_google_news_articles, hne]

/-- Witness for C2 on a concrete two-element result list. -/
theorem search_client_maps_results_witness :
    ∃ ms, (get_google_news_articles
        (SearchOutcome.ok [demoApi "T1" "a", demoApi "T2" "b"])).2 = Except.ok ms
      ∧ ms = [demoApi "T1" "a", demoApi "T2" "b"].map (fun a =>
          { title := a.title, link := a.link, source := a.source,
            published_date := a.published, snippet := a.snippet })
      ∧ ms.length = ([demoApi "T1" "a", demoApi "T2" "b"] : List ApiResult).length
      ∧ ms.length ≤ 10 :=
  search_client_maps_results [demoApi "T1" "a", demoApi "T2" "b"]
    (by decide) (by decide)

/-- C3: the article extractor returns a (success, text) pair; on a
downloaded page, success holds exactly when the stripped body text is
non-empty, in which case the stripped text is returned; an empty
stripped body or an exception during download/parse yields the failure
pair with the fixed placeholder text instead of propagating the
exception. -/
theorem extract_article_text_spec (fetch : Option String → FetchOutcome)
    (url : Option String) :
    (∀ body, fetch url = FetchOutcome.page body →
      (((extract_article_text fetch url).1 = true ↔ pyStrip body ≠ "")
        ∧ (pyStrip body = "" →
            extract_article_text fetch url = (false, "Content could not be retrieved."))
        ∧ (pyStrip body ≠ "" →
            extract_article_text fetch url = (true, pyStrip body))))
    ∧ (∀ m, fetch url = FetchOutcome.raises m →
        extract_article_text fetch url = (false, "Content could not be retrieved.")) := by
  constructor
  · intro body hb
    by_cases he : pyStrip body = ""
    · refine ⟨?_, ?_, ?_⟩ <;> simp [extract_article_text, hb, he]
    · refine ⟨?_, ?_, ?_⟩ <;> simp [extract_article_text, hb, he]
  · intro m hm
    simp [extract_article_text, hm]

/-- Witness for C3 at the demo fetch oracle: a normal page, a
whitespace-only page, and a raising download. -/
theorem extract_article_text_spec_witness :
    extract_article_text demoFetch (some "a") = (true, "body-a")
    ∧ extract_article_text demoFetch (some "f") = (false, "Content could not be retrieved.")
    ∧ extract_article_text demoFetch (some "c") = (false, "Content could not be retrieved.") := by
  refine ⟨?_, ?_, ?_⟩
  · have h := ((extract_article_text_spec demoFetch (some "a")).1 " body-a " rfl).2.2
      (by decide)
    exact h.trans (by decide)
  · exact ((extract_article_text_spec demoFetch (some "f")).1 "  \n " rfl).2.1 (by decide)
  · exact (extract_article_text_spec demoFetch (some "c")).2 "boom" rfl

/-- C4 counterexample: with exactly five successes the post-loop check
does not proceed silently to the next stage; it prints a success
message. -/
theorem post_loop_five_not_silent :
    (postLoopMessages 5).1 = ["\nSuccessfully retrieved 5 articles.\n"]
    ∧ (postLoopMessages 5).1 ≠ []
    ∧ (postLoopMessages 5).2 = Except.ok () :=
  ⟨rfl, by decide, rfl⟩

/-- C4 as amended: zero successes prints a message and exits 1; between
1 and 4 successes prints a warning naming the count and proceeds;
exactly 5 successes prints a success message (rather than proceeding
silently) and proceeds to the next stage. -/
theorem post_loop_spec (n : Nat) :
    (n = 0 → postLoopMessages n =
      (["No articles were successfully retrieved. Exiting."], Except.error 1))
    ∧ (1 ≤ n → n ≤ 4 → postLoopMessages n =
        (["\nOnly " ++ toString n ++ " articles were successfully retrieved.\n"],
          Except.ok ()))
    ∧ (n = 5 → postLoopMessages n =
        (["\nSuccessfully retrieved 5 articles.\n"], Except.ok ())) := by
  refine ⟨?_, ?_, ?_⟩
  · intro h
    subst h
    rfl
  · intro h1 h4
    have h0 : ¬ n = 0 := by omega
    have h5 : n < 5 := by omega
    simp [postLoopMessages, h0, h5]
  · intro h
    subst h
    rfl

/-- Witness for C4 (amended) at three successes: the warning branch. -/
theorem post_loop_spec_witness :
    postLoopMessages 3 =
      (["\nOnly " ++ toString 3 ++ " articles were successfully retrieved.\n"],
        Except.ok ()) :=
  (post_loop_spec 3).2.1 (by decide) (by decide)

/-- C5: a query whose stripped content is empty makes the program print
the error and exit 1 before any network interaction (no search call, no
page fetch, no chat-completion request); a non-empty stripped query
passes through with no further validation. -/
theorem empty_query_exits_before_network (raw : String)
    (search : SearchOutcome) (fetch : Option String → FetchOutcome)
    (llm : ChatRequest → LLMOutcome) :
    (pyStrip raw = "" →
      mainRun raw search fetch llm =
        { printed := ["Search query cannot be empty."], searchCalls := 0,
          attemptedLinks := [], llmRequests := [],
          outcome := Outcome.exited 1 })
    ∧ (pyStrip raw ≠ "" → (get_user_query raw).2 = Except.ok (pyStrip raw)) := by
  constructor
  · intro h
    have hq : get_user_query raw =
        (["Search query cannot be empty."], Except.error 1) := by
      simp [get_user_query, h]
    unfold mainRun
    rw [hq]
  · intro h
    simp [get_user_query, h]

/-- Witness for C5 on a whitespace-only query line. -/
theorem empty_query_exits_before_network_witness :
    mainRun " \n " (SearchOutcome.ok [demoApi "T1" "a"]) demoFetch demoLLM =
      { printed := ["Search query cannot be empty."], searchCalls := 0,
        attemptedLinks := [], llmRequests := [],
        outcome := Outcome.exited 1 } :=
  (empty_query_exits_before_network " \n " (SearchOutcome.ok [demoApi "T1" "a"])
    demoFetch demoLLM).1 (by decide)

/-- C6: when the search call raises or returns an empty news-result
list, the run prints a message, exits with code 1, never attempts an
extraction, issues no chat-completion request, and the search is called
exactly once (no retry); in the empty-result case the printed messages
end with the fixed no-articles message. -/
theorem search_failure_fatal (raw : String) (search : SearchOutcome)
    (fetch : Option String → FetchOutcome) (llm : ChatRequest → LLMOutcome)
    (hq : pyStrip raw ≠ "")
    (hfail : search = SearchOutcome.ok [] ∨ ∃ m, search = SearchOutcome.raises m) :
    (mainRun raw search fetch llm).outcome = Outcome.exited 1
    ∧ (mainRun raw search fetch llm).attemptedLinks = []
    ∧ (mainRun raw search fetch llm).llmRequests = []
    ∧ (mainRun raw search fetch llm).searchCalls = 1
    ∧ (get_google_news_articles search).1 ≠ []
    ∧ (search = SearchOutcome.ok [] →
        (mainRun raw search fetch llm).printed =
          ["\nFetching up to 10 news articles...\n",
            "No news articles found for the given query."]) := by
  have hqq : get_user_query raw = ([], Except.ok (pyStrip raw)) := by
    simp [get_user_query, hq]
  rcases hfail with h | ⟨m, h⟩
  · subst h
    unfold mainRun
    rw [hqq]
    exact ⟨rfl, rfl, rfl, rfl, by decide, fun _ => rfl⟩
  · subst h
    unfold mainRun
    rw [hqq]
    refine ⟨rfl, rfl, rfl, rfl, by simp [get_google_news_articles],
      fun hcon => nomatch hcon⟩

/-- Witness for C6 on a concrete query and an empty search result. -/
theorem search_failure_fatal_witness :
    (mainRun "acme" (SearchOutcome.ok []) demoFetch demoLLM).outcome = Outcome.exited 1
    ∧ (mainRun "acme" (SearchOutcome.ok []) demoFetch demoLLM).attemptedLinks = []
    ∧ (mainRun "acme" (SearchOutcome.ok []) demoFetch demoLLM).llmRequests = []
    ∧ (mainRun "acme" (SearchOutcome.ok []) demoFetch demoLLM).searchCalls = 1
    ∧ (get_google_news_articles (SearchOutcome.ok [])).1 ≠ []
    ∧ (SearchOutcome.ok [] = SearchOutcome.ok ([] : List ApiResult) →
        (mainRun "acme" (SearchOutcome.ok []) demoFetch demoLLM).printed =
          ["\nFetching up to 10 news articles...\n",
            "No news articles found for the given query."]) :=
  search_failure_fatal "acme" (SearchOutcome.ok []) demoFetch demoLLM
    (by decide) (Or.inl rfl)

/-- C7: the prompt builder is deterministic, and the article count
stated in the prompt header equals the length of the input list. -/
theorem prepare_prompt_deterministic (l1 l2 : List ExtractedArticle)
    (h : l1 = l2) :
    prepare_prompt l1 = prepare_prompt l2
    ∧ ∃ rest, prepare_prompt l1 =
        ("Here are " ++ toString l1.length ++ " news articles:\n\n") ++ rest := by
  subst h
  exact ⟨rfl, blocks 1 l1 ++ trailingInstruction, prepare_prompt_eq l1⟩

/-- Witness for C7 on a concrete one-element article list. -/
theorem prepare_prompt_deterministic_witness :
    prepare_prompt [demoExtract] = prepare_prompt [demoExtract]
    ∧ ∃ rest, prepare_prompt [demoExtract] =
        ("Here are " ++ toString ([demoExtract] : List ExtractedArticle).length ++
          " news articles:\n\n") ++ rest :=
  prepare_prompt_deterministic [demoExtract] [demoExtract] rfl

/-- C8: the prompt is the header stating the article count, followed by
one block per article in input order carrying its title and full text,
followed by the fixed trailing instruction; the content line of each
article
is embedded verbatim, with no truncation, as an infix of the prompt. -/
theorem prepare_prompt_structure (l : List ExtractedArticle) :
    prepare_prompt l =
      ("Here are " ++ toString l.length ++ " news articles:\n\n") ++
        (blocks 1 l ++ trailingInstruction)
    ∧ ∀ a ∈ l, List.IsInfix ("Content: " ++ a.full_text ++ "\n\n").data
        (prepare_prompt l).data :=
  ⟨prepare_prompt_eq l, fun a ha => contentLine_infix_prompt a l ha⟩

/-- Witness for C8 on a concrete one-element article list. -/
theorem prepare_prompt_structure_witness :
    prepare_prompt [demoExtract] =
      ("Here are " ++ toString ([demoExtract] : List ExtractedArticle).length ++
        " news articles:\n\n") ++
        (blocks 1 [demoExtract] ++ trailingInstruction)
    ∧ List.IsInfix ("Content: " ++ demoExtract.full_text ++ "\n\n").data
        (prepare_prompt [demoExtract]).data :=
  ⟨(prepare_prompt_structure [demoExtract]).1,
    (prepare_prompt_structure [demoExtract]).2 demoExtract (by decide)⟩

/-- C9: the LLM client sends a single chat-completion request with model
gpt-4, the fixed system instruction, the prompt as the user message,
max output tokens 1500 and temperature 0.7; on a response with a first
choice it returns the stripped content of that choice; on an empty choices
list, an AttributeError (outdated client library, which additionally
prints the update advice) or any other error it exits with code 1, with
no retry. -/
theorem send_to_gpt_spec (llm : ChatRequest → LLMOutcome) (prompt : String) :
    (send_to_gpt llm prompt).1 =
      { model := "gpt-4"
        messages := [("system", "You are a helpful assistant."), ("user", prompt)]
        max_tokens := 1500
        temperature := 7 / 10 }
    ∧ (∀ first rest, llm (send_to_gpt llm prompt).1 = LLMOutcome.ok (first :: rest) →
        (send_to_gpt llm prompt).2.2 = Except.ok (pyStrip first))
    ∧ (∀ m, llm (send_to_gpt llm prompt).1 = LLMOutcome.raisesAttr m →
        (send_to_gpt llm prompt).2.2 = Except.error 1
        ∧ "Please ensure the \x27openai\x27 package is up-to-date." ∈
            (send_to_gpt llm prompt).2.1)
    ∧ (∀ m, llm (send_to_gpt llm prompt).1 = LLMOutcome.raisesOther m →
        (send_to_gpt llm prompt).2.2 = Except.error 1)
    ∧ (llm (send_to_gpt llm prompt).1 = LLMOutcome.ok [] →
        (send_to_gpt llm prompt).2.2 = Except.error 1) := by
  cases hllm : llm
      { model := "gpt-4"
        messages := [("system", "You are a helpful assistant."), ("user", prompt)]
        max_tokens := 1500
        temperature := 7 / 10 } with
  | raisesAttr m =>
    refine ⟨?_, ?_, ?_, ?_, ?_⟩ <;> simp [send_to_gpt, hllm]
  | raisesOther m =>
    refine ⟨?_, ?_, ?_, ?_, ?_⟩ <;> simp [send_to_gpt, hllm]
  | ok choices =>
    cases choices with
    | nil => refine ⟨?_, ?_, ?_, ?_, ?_⟩ <;> simp [send_to_gpt, hllm]
    | cons first rest =>
      refine ⟨?_, ?_, ?_, ?_, ?_⟩ <;> simp [send_to_gpt, hllm]

/-- Witness for C9 at the demo chat-completion oracle. -/
theorem send_to_gpt_spec_witness :
    (send_to_gpt demoLLM "the prompt").1 =
      { model := "gpt-4"
        messages := [("system", "You are a helpful assistant."), ("user", "the prompt")]
        max_tokens := 1500
        temperature := 7 / 10 }
    ∧ (send_to_gpt demoLLM "the prompt").2.2 = Except.ok (pyStrip "  the reply  ") :=
  ⟨(send_to_gpt_spec demoLLM "the prompt").1,
    (send_to_gpt_spec demoLLM "the prompt").2.1 "  the reply  " [] rfl⟩

/-- C10 counterexample: a page whose own body text is exactly the
placeholder sentence is a successful extraction, so the placeholder
text can appear as the content of an article in the prompt: with such a
page, the full text of the one retained article is the placeholder and the
prompt carries it as a content line. -/
theorem placeholder_can_appear_in_prompt :
    ((extractionLoop (extract_article_text placeholderPage) [demoMeta "T" "L"]).1.map
        fun e => e.full_text) = ["Content could not be retrieved."]
    ∧ prepare_prompt (extractionLoop (extract_article_text placeholderPage)
          [demoMeta "T" "L"]).1 =
        "Here are 1 news articles:\n\nArticle 1:\nTitle: T\nContent: Content could not be retrieved.\n\n" ++
          trailingInstruction := by
  constructor
  · rfl
  · rfl

/-- C10 as amended: the list handed to the prompt builder is an
order-preserving sublist of the search results, and every article in it
carries a full text that is already stripped, non-empty, and equal to
the stripped body of a successfully fetched page; the failure
placeholder is never attached by a failed extraction, though a page
whose actual body text equals the placeholder sentence would still
appear. -/
theorem prompt_input_invariant (fetch : Option String → FetchOutcome)
    (arts : List ArticleMetadata) :
    List.Sublist
      ((extractionLoop (extract_article_text fetch) arts).1.map fun e => e.meta) arts
    ∧ ∀ e ∈ (extractionLoop (extract_article_text fetch) arts).1,
        pyStrip e.full_text = e.full_text ∧ e.full_text ≠ ""
        ∧ ∃ body, fetch e.meta.link = FetchOutcome.page body
            ∧ e.full_text = pyStrip body := by
  have hfst := extractionLoopAux_fst (extract_article_text fetch) arts [] [] (by simp)
  have hfst2 : (extractionLoop (extract_article_text fetch) arts).1 =
      ((arts.filter fun a => (extract_article_text fetch a.link).1).take 5).map
        (fun a => { meta := a, full_text := (extract_article_text fetch a.link).2 }) := by
    simpa [extractionLoop] using hfst
  constructor
  · rw [hfst2, List.map_map]
    have hid : ((fun e => e.meta) ∘
        (fun a => ({ meta := a, full_text := (extract_article_text fetch a.link).2 } :
          ExtractedArticle))) = id := rfl
    rw [hid, List.map_id]
    exact (List.take_sublist _ _).trans (List.filter_sublist _)
  · intro e he
    rw [hfst2] at he
    obtain ⟨a, ha, hea⟩ := List.mem_map.mp he
    have ha2 : a ∈ arts.filter fun a => (extract_article_text fetch a.link).1 :=
      List.mem_of_mem_take ha
    have hsucc : (extract_article_text fetch a.link).1 = true :=
      (List.mem_filter.mp ha2).2
    cases hf : fetch a.link with
    | raises m =>
      rw [extract_article_text, hf] at hsucc
      simp at hsucc
    | page body =>
      by_cases hb : pyStrip body = ""
      · rw [extract_article_text, hf] at hsucc
        simp [hb] at hsucc
      · have hext : extract_article_text fetch a.link = (true, pyStrip body) := by
          simp [extract_article_text, hf, hb]
        have he2 : e = { meta := a, full_text := pyStrip body } := by
          rw [← hea, hext]
        subst he2
        exact ⟨pyStrip_idem body, hb, body, hf, rfl⟩

/-- Witness for C10 (amended) at the demo oracle and candidate list,
with the first retained article as the member. -/
theorem prompt_input_invariant_witness :
    List.Sublist
      ((extractionLoop (extract_article_text demoFetch) demoArts).1.map fun e => e.meta)
      demoArts
    ∧ (pyStrip demoExtract.full_text = demoExtract.full_text
        ∧ demoExtract.full_text ≠ ""
        ∧ ∃ body, demoFetch demoExtract.meta.link = FetchOutcome.page body
            ∧ demoExtract.full_text = pyStrip body) :=
  ⟨(prompt_input_invariant demoFetch demoArts).1,
    (prompt_input_invariant demoFetch demoArts).2 demoExtract (by decide)⟩

end NewsRAG
